import Mathlib

/-!
Verification of the SillyAgents subroutine trigger and loop runtime.

This file gives a shallow embedding, in Lean, of the multi-session
subroutine runtime of the SillyAgents repository (the document of
src/unnamed/part_004 spanning the runtime: startLoop, stopLoop,
restartLoop, onTick, evaluateToolTrigger, evaluateApiTrigger,
fireHeartbeat, onConfigChanged, onSubroutineCreated) together with the
shared configuration factory of src/utils.js.  Pure JavaScript
computations become Lean functions; the stateful registry becomes
explicit state passing over a RegistryState record; every external
collaborator (chat store, generation pipeline, tool manager, HTTP
fetch) is an explicit environment parameter, and each observable side
effect (transcript write, generation call, tool invocation, fetch,
error log) is recorded in a trace.
-/

/- ── JavaScript value model ──────────────────────────────────────────────
   Tool invocations return arbitrary JavaScript values; the runtime only
   ever observes them through truthiness (the expression result || empty
   string), the instanceof Error test, and string conversion.  We model
   the value universe by the constructors those observations distinguish.
   Numbers are modelled as integers: the runtime only stringifies them,
   and String(n) agrees with Int.repr on integral values. -/
inductive JSValue where
  | vNull
  | vUndefined
  | vBool (b : Bool)
  | vNum (n : Int)
  | vStr (s : String)
  /-- An object created by the Error constructor (instanceof Error holds). -/
  | vErr (msg : String)
  deriving DecidableEq, Repr

/-- JavaScript truthiness of a value. -/
def jsTruthy : JSValue → Bool
  | .vNull => false
  | .vUndefined => false
  | .vBool b => b
  | .vNum n => n != 0
  | .vStr s => s != ""
  | .vErr _ => true

/-- The JavaScript expression a || b: the left operand when truthy,
otherwise the right operand. -/
def jsOr (a b : JSValue) : JSValue :=
  if jsTruthy a then a else b

/-- JavaScript String(v) conversion.  String(Error(m)) yields the text
Error: m; String of an integral number is its decimal representation. -/
def jsString : JSValue → String
  | .vNull => "null"
  | .vUndefined => "undefined"
  | .vBool true => "true"
  | .vBool false => "false"
  | .vNum n => toString n
  | .vStr s => s
  | .vErr m => "Error: " ++ m

/-- The instanceof Error test used by evaluateToolTrigger. -/
def isErrorValue : JSValue → Bool
  | .vErr _ => true
  | _ => false

/-- Prefix test on character lists (Boolean, decidable equality on Char). -/
def chPrefix : List Char → List Char → Bool
  | [], _ => true
  | _ :: _, [] => false
  | a :: as, b :: bs => a = b && chPrefix as bs

/-- Occurrence of pat as a contiguous run inside l. -/
def chInfix (pat l : List Char) : Bool :=
  chPrefix pat l ||
    match l with
    | [] => false
    | _ :: rest => chInfix pat rest

/-- JavaScript s.includes(pat): pat occurs as a contiguous substring of s.
Every string includes the empty string. -/
def jsIncludes (s pat : String) : Bool :=
  chInfix pat.toList s.toList

/-- Characters removed by JavaScript String.prototype.trim: the ASCII
whitespace and line-terminator set (the bodies compared by the runtime
are ASCII sentinels, so the exotic Unicode space code points, which JS
also trims, are irrelevant to every comparison made here). -/
def jsIsWhitespace (c : Char) : Bool :=
  c = ' ' || c = '\t' || c = '\n' || c = '\r' ||
  c = Char.ofNat 11 || c = Char.ofNat 12 || c = Char.ofNat 0xa0

/-- JavaScript s.trim(): strip whitespace from both ends. -/
def jsTrim (s : String) : String :=
  ⟨(s.toList.dropWhile jsIsWhitespace).reverse.dropWhile jsIsWhitespace |>.reverse⟩

/-- JavaScript toLowerCase restricted to ASCII letters (sufficient for
the sentinel comparisons the runtime performs). -/
def jsToLower (s : String) : String :=
  ⟨s.toList.map fun c => if c.isUpper then c.toLower else c⟩

/- ── Configuration (src/utils.js) ──────────────────────────────────────── -/

/-- SubroutineConfig: the per-session configuration block stored in chat
metadata; field set mirrors the typedef and factory in src/utils.js.
The trigger type is kept as the literal string the runtime switches on. -/
structure SubroutineConfig where
  isSubroutine : Bool
  triggerType : String
  intervalSeconds : Nat
  toolName : String
  toolCondition : String
  apiUrl : String
  autoQueue : Bool
  autoQueuePrompt : String
  heartbeatMessage : String
  useSummary : Bool
  color : String
  useLorebooks : Bool
  useExampleMessages : Bool
  running : Bool
  deriving DecidableEq, Repr

/-- defaultSubroutineConfig from src/utils.js: the factory used when a
new subroutine chat is created. -/
def defaultSubroutineConfig : SubroutineConfig where
  isSubroutine := true
  triggerType := "time"
  intervalSeconds := 300
  toolName := ""
  toolCondition := ""
  apiUrl := ""
  autoQueue := false
  autoQueuePrompt := "Continue working on the current task. Call a tool or report your status."
  heartbeatMessage := "[heartbeat]"
  useSummary := false
  color := "#4a90d9"
  useLorebooks := true
  useExampleMessages := true
  running := false

/- ── Collaborator outcomes ─────────────────────────────────────────────── -/

/-- Outcome of one call to ToolManager.invokeFunctionTool (including, in
the heartbeat loop, the JSON.parse of the raw argument string, whose
failure surfaces as a thrown exception): either a returned value (which
may be an Error instance, returned rather than thrown) or a thrown
exception carrying its message. -/
inductive InvokeOutcome where
  | ret (v : JSValue)
  | thrown (msg : String)
  deriving DecidableEq, Repr

/-- Whether an invocation returned normally. -/
def InvokeOutcome.isRet : InvokeOutcome → Bool
  | .ret _ => true
  | .thrown _ => false

/- ── Trigger evaluators (part_004 lines 480-536) ───────────────────────── -/

/-- evaluateToolTrigger: fails closed on an empty toolName, fails closed
when the ToolManager collaborator is unavailable, treats a thrown
exception or a returned Error instance as do-not-fire, and otherwise
compares String(result || empty string) against toolCondition with a
case-sensitive substring test.  The outcome argument stands for the
single invokeFunctionTool call the source makes with empty parameters. -/
def evaluateToolTrigger (config : SubroutineConfig) (toolManagerOk : Bool)
    (outcome : InvokeOutcome) : Bool :=
  if config.toolName = "" then false
  else if !toolManagerOk then false
  else
    match outcome with
    | .thrown _ => false
    | .ret result =>
      if isErrorValue result then false
      else jsIncludes (jsString (jsOr result (.vStr ""))) config.toolCondition

/-- The empty-sentinel body set of the API trigger. -/
def emptySentinels : List String := ["", "null", "none", "[]", "\x7b\x7d"]

/-- evaluateApiTrigger: fails closed on an empty apiUrl or a fetch
failure; otherwise trims the response body, lower-cases it, and fires
unless it is one of the empty sentinels.  The fetch argument stands for
the awaited text of the HTTP GET the source performs. -/
def evaluateApiTrigger (config : SubroutineConfig)
    (fetched : Except String String) : Bool :=
  if config.apiUrl = "" then false
  else
    match fetched with
    | .error _ => false
    | .ok text =>
      let body := jsTrim text
      !(emptySentinels.contains (jsToLower body))

/- ── Transcript and generation model (part_004 lines 545-630) ──────────── -/

/-- One transcript turn as built by the runtime.  The source also stamps
a send_date with the wall clock; real time is outside the embedding and
the runtime never reads the field back, so it is omitted. -/
structure Turn where
  is_user : Bool
  name : String
  mes : String
  tool_call_id : Option String := none
  deriving DecidableEq, Repr

/-- One tool-call request inside a generation result (the fields
toolCall.id, toolCall.function.name and toolCall.function.arguments of
the source, with the one-level function wrapper flattened). -/
structure ToolCall where
  id : String
  fname : String
  arguments : String
  deriving DecidableEq, Repr

/-- A generation result; an absent tool_calls field is the empty list
(the source only ever tests tool_calls && tool_calls.length). -/
structure GenResult where
  tool_calls : List ToolCall
  deriving DecidableEq, Repr

/-- Observable side effects of a tick, in order of occurrence.
saveChat records the full transcript the write persists (saveChat is a
whole-file write in the source); generate is one call to the generation
collaborator generateFromChatId; invokeTool is one
ToolManager.invokeFunctionTool call with the raw argument string it
will parse; fetchUrl is the HTTP GET of the API trigger. -/
inductive Effect where
  | saveChat (chat : List Turn)
  | generate
  | invokeTool (name arguments : String)
  | fetchUrl (url : String)
  | logError (msg : String)
  deriving DecidableEq, Repr

/-- The collaborators one heartbeat cycle consumes: the chat-store load
(none models the caught load failure that returns null), the successive
outcomes of the generation collaborator by call index, and the tool
invoker keyed by tool name and raw argument string. -/
structure HeartbeatEnv where
  loadChat : Option (List Turn)
  gen : Nat → Except String GenResult
  invoke : String → String → InvokeOutcome

/-- The raw argument string a tool call is invoked with:
JSON.parse(toolCall.function.arguments || braces) in the source, so an
empty arguments string falls back to the empty-object literal. -/
def argOf (tc : ToolCall) : String :=
  if tc.arguments = "" then "\x7b\x7d" else tc.arguments

/-- The heartbeat turn appended at the start of a fired cycle; an empty
heartbeatMessage falls back to the [heartbeat] literal. -/
def heartbeatTurn (config : SubroutineConfig) : Turn where
  is_user := true
  name := "User"
  mes := if config.heartbeatMessage = "" then "[heartbeat]" else config.heartbeatMessage

/-- The transcript turn recording one tool result: system-side, tagged
with the tool call id, body composed of the tool name header and the
stringified result. -/
def toolResultTurn (tc : ToolCall) (v : JSValue) : Turn where
  is_user := false
  name := "System"
  mes := "[Tool: " ++ tc.fname ++ "]\n" ++ jsString v
  tool_call_id := some tc.id

/-- The continuation turn appended by the auto-queue step; an empty
autoQueuePrompt falls back to the literal continuation prompt. -/
def autoQueueTurn (config : SubroutineConfig) : Turn where
  is_user := true
  name := "User"
  mes := if config.autoQueuePrompt = "" then "Continue or call the finish tool if done."
         else config.autoQueuePrompt

/-- The manual tool-execution loop (source lines 579-599): for each
request in order, invoke the tool; on a normal return append the result
turn and persist; on a thrown exception log the failure and continue
with the next request, appending and persisting nothing. -/
def runToolCalls (env : HeartbeatEnv) (calls : List ToolCall)
    (chat : List Turn) : List Turn × List Effect :=
  match calls with
  | [] => (chat, [])
  | tc :: rest =>
    match env.invoke tc.fname (argOf tc) with
    | .ret v =>
      let chat1 := chat ++ [toolResultTurn tc v]
      let r := runToolCalls env rest chat1
      (r.1, .invokeTool tc.fname (argOf tc) :: .saveChat chat1 :: r.2)
    | .thrown _ =>
      let r := runToolCalls env rest chat
      (r.1, .invokeTool tc.fname (argOf tc)
              :: .logError ("Tool execution failed: " ++ tc.fname) :: r.2)

/-- How one cycle ended: ran to the final log line, returned early
because the chat failed to load, or was stopped by the outer catch. -/
inductive CycleEnd where
  | completed
  | loadFailed
  | caught (msg : String)
  deriving DecidableEq, Repr

/-- Result of one heartbeat cycle: the final in-memory transcript, the
ordered effect trace, how the cycle ended, and the value the
isGenerating guard holds after the finally block. -/
structure CycleResult where
  chat : List Turn
  trace : List Effect
  ending : CycleEnd
  guardAfter : Bool
  deriving DecidableEq, Repr

/-- The auto-queue step (source lines 606-622): when autoQueue is on and
the final generation result carries no tool calls, append the
continuation turn, persist, and invoke generation once more (a failure
of that generation is swallowed by the outer catch); otherwise do
nothing.  genIdx is the call index the extra generation would use. -/
def autoQueueStep (config : SubroutineConfig) (env : HeartbeatEnv) (genIdx : Nat)
    (finalResult : GenResult) (chat : List Turn) : CycleResult :=
  if config.autoQueue && finalResult.tool_calls.isEmpty then
    let chat1 := chat ++ [autoQueueTurn config]
    match env.gen genIdx with
    | .ok _ => ⟨chat1, [.saveChat chat1, .generate], .completed, false⟩
    | .error e =>
      ⟨chat1, [.saveChat chat1, .generate,
               .logError ("Heartbeat generation failed: " ++ e)], .caught e, false⟩
  else ⟨chat, [], .completed, false⟩

/-- fireHeartbeat (source lines 545-630), given the loop-state guard is
present: load the chat (null ends the cycle early inside the try, so the
finally still clears the guard), append and persist the heartbeat turn,
generate; when the result carries tool calls run the execution loop and
generate a second time; then run the auto-queue step on the final
result.  Any collaborator failure is the thrown exception the outer
catch turns into a logged error, and every path ends with the guard
cleared by the finally block. -/
def fireHeartbeat (config : SubroutineConfig) (env : HeartbeatEnv) : CycleResult :=
  match env.loadChat with
  | none => ⟨[], [.logError "Failed to load chat data"], .loadFailed, false⟩
  | some chat0 =>
    let chat1 := chat0 ++ [heartbeatTurn config]
    match env.gen 0 with
    | .error e =>
      ⟨chat1, [.saveChat chat1, .generate,
               .logError ("Heartbeat generation failed: " ++ e)], .caught e, false⟩
    | .ok r0 =>
      if r0.tool_calls.isEmpty then
        let aq := autoQueueStep config env 1 r0 chat1
        ⟨aq.chat, [.saveChat chat1, .generate] ++ aq.trace, aq.ending, false⟩
      else
        let r := runToolCalls env r0.tool_calls chat1
        match env.gen 1 with
        | .error e =>
          ⟨r.1, [.saveChat chat1, .generate] ++ r.2 ++
                [.generate, .logError ("Heartbeat generation failed: " ++ e)],
           .caught e, false⟩
        | .ok r1 =>
          let aq := autoQueueStep config env 2 r1 r.1
          ⟨aq.chat, [.saveChat chat1, .generate] ++ r.2 ++ [.generate] ++ aq.trace,
           aq.ending, false⟩

/-- Number of persisted transcript writes in a trace. -/
def saveCount (tr : List Effect) : Nat :=
  tr.countP fun e => match e with | .saveChat _ => true | _ => false

/-- Number of generation-collaborator invocations in a trace. -/
def genCount (tr : List Effect) : Nat :=
  tr.countP fun e => match e with | .generate => true | _ => false

/-- The tool invocations of a trace, in order, as name and argument pairs. -/
def invokedTools (tr : List Effect) : List (String × String) :=
  tr.filterMap fun e => match e with
    | .invokeTool n a => some (n, a)
    | _ => none

/- ── Loop registry (part_004 lines 330-472, 653-703) ───────────────────── -/

/-- The per-session LoopState the registry keeps in its map: the
setInterval handle and the overlap guard. -/
structure LoopState where
  intervalId : Nat
  isGenerating : Bool
  deriving DecidableEq, Repr

/-- One armed recurring timer: its setInterval handle (globally unique),
the session whose tick handler it invokes, and the armed period in
milliseconds. -/
structure Timer where
  id : Nat
  chatId : String
  intervalMs : Nat
  deriving DecidableEq, Repr

/-- The registry state: the external per-chat configuration store read
through getSubroutineConfig, the runningLoops map, the armed timers of
the host timer subsystem, a fresh-handle counter for setInterval, and
the emitted loop-state notifications in order. -/
structure RegistryState where
  configs : String → Option SubroutineConfig
  loops : String → Option LoopState
  timers : List Timer
  nextId : Nat
  notifications : List (String × Bool)

/-- The state at process start: no configs, no loops, no timers. -/
def initialState : RegistryState where
  configs := fun _ => none
  loops := fun _ => none
  timers := []
  nextId := 0
  notifications := []

/-- The timers currently armed for one session. -/
def timersFor (s : RegistryState) (chatId : String) : List Timer :=
  s.timers.filter fun t => t.chatId = chatId

/-- startLoop (source lines 354-381): refuse a falsy chatId, no-op when
a loop is already running or no config exists; otherwise arm a recurring
timer at max(intervalSeconds, 5) seconds, store a LoopState with the
guard down, and emit a running notification. -/
def startLoop (s : RegistryState) (chatId : String) : RegistryState :=
  if chatId = "" then s
  else if (s.loops chatId).isSome then s
  else
    match s.configs chatId with
    | none => s
    | some config =>
      let interval := max config.intervalSeconds 5 * 1000
      { s with
        loops := fun j => if j = chatId then some ⟨s.nextId, false⟩ else s.loops j
        timers := s.timers ++ [⟨s.nextId, chatId, interval⟩]
        nextId := s.nextId + 1
        notifications := s.notifications ++ [(chatId, true)] }

/-- stopLoop (source lines 384-401): refuse a falsy chatId, no-op when
no loop is running; otherwise clear the interval by its handle, remove
the LoopState, and emit a stopped notification. -/
def stopLoop (s : RegistryState) (chatId : String) : RegistryState :=
  if chatId = "" then s
  else
    match s.loops chatId with
    | none => s
    | some ls =>
      { s with
        loops := fun j => if j = chatId then none else s.loops j
        timers := s.timers.filter fun t => t.id ≠ ls.intervalId
        notifications := s.notifications ++ [(chatId, false)] }

/-- restartLoop (source lines 404-408): stop, then start again only when
a loop had been running. -/
def restartLoop (s : RegistryState) (chatId : String) : RegistryState :=
  let wasRunning := (s.loops chatId).isSome
  let s1 := stopLoop s chatId
  if wasRunning then startLoop s1 chatId else s1

/-- The collaborator outcomes one tick consumes: whether the ToolManager
is present, the outcome of the trigger tool poll, the fetched body of
the API trigger, and the heartbeat-cycle environment. -/
structure TickEnv where
  toolManagerOk : Bool
  triggerInvoke : InvokeOutcome
  triggerFetch : Except String String
  hb : HeartbeatEnv

/-- The trigger dispatch of onTick (source lines 450-467): the decision
and the external calls it performs.  A time trigger always fires with no
call; the tool trigger polls the named tool with empty parameters when
it gets as far as invoking it; the api trigger fetches the poll URL; an
unknown trigger type logs a warning and does not fire. -/
def evalTrigger (config : SubroutineConfig) (env : TickEnv) : Bool × List Effect :=
  if config.triggerType = "time" then (true, [])
  else if config.triggerType = "tool" then
    (evaluateToolTrigger config env.toolManagerOk env.triggerInvoke,
     if config.toolName = "" || !env.toolManagerOk then []
     else [.invokeTool config.toolName "\x7b\x7d"])
  else if config.triggerType = "api" then
    (evaluateApiTrigger config env.triggerFetch,
     if config.apiUrl = "" then [] else [.fetchUrl config.apiUrl])
  else (false, [])

/-- onTick (source lines 432-472): warn-and-return when no LoopState
exists, drop the tick when the guard is up, stop the loop when the
config has disappeared, otherwise evaluate the trigger and on a positive
decision run one heartbeat cycle (the guard is raised for its duration
and lowered by its finally, so the settled registry state is unchanged).
The returned trace is every external call the tick performed. -/
def onTick (s : RegistryState) (chatId : String) (env : TickEnv) :
    RegistryState × List Effect :=
  match s.loops chatId with
  | none => (s, [])
  | some ls =>
    if ls.isGenerating then (s, [])
    else
      match s.configs chatId with
      | none => (stopLoop s chatId, [])
      | some config =>
        let d := evalTrigger config env
        if d.1 then (s, d.2 ++ (fireHeartbeat config env.hb).trace)
        else (s, d.2)

/-- onConfigChanged (source lines 655-679): refuse a falsy chatId; a
missing config stops the loop; running with no loop starts one; not
running with a loop stops it; running with a loop restarts it. -/
def onConfigChanged (s : RegistryState) (chatId : String) : RegistryState :=
  if chatId = "" then s
  else
    match s.configs chatId with
    | none => stopLoop s chatId
    | some config =>
      let isRunning := (s.loops chatId).isSome
      if config.running && !isRunning then startLoop s chatId
      else if !config.running && isRunning then stopLoop s chatId
      else if isRunning then restartLoop s chatId
      else s

/-- onSubroutineCreated (source lines 681-696): refuse a falsy chatId;
after the settle delay re-read the config and start the loop when it
declares running. -/
def onSubroutineCreated (s : RegistryState) (chatId : String) : RegistryState :=
  if chatId = "" then s
  else
    match s.configs chatId with
    | some config => if config.running then startLoop s chatId else s
    | none => s

/-- Overwrite the external config store at one chat id (the persisted
setSubroutineConfig write the presentation layer performs before it
emits sa:config-changed). -/
def setConfig (s : RegistryState) (chatId : String)
    (c : Option SubroutineConfig) : RegistryState :=
  { s with configs := fun j => if j = chatId then c else s.configs j }

/-- The reconciler-visible events: an external config write followed by
its sa:config-changed notification; a subroutine creation (the chat-list
flow always creates a brand-new chat file, so the id carries no prior
config — modelled by the freshness guard) followed by its
sa:subroutine-created notification; and one timer tick. -/
inductive Event where
  | configWrite (chatId : String) (c : Option SubroutineConfig)
  | subroutineCreated (chatId : String) (config : SubroutineConfig)
  | tick (chatId : String) (env : TickEnv)

/-- Apply one event to the registry state. -/
def applyEvent (s : RegistryState) : Event → RegistryState
  | .configWrite chatId c => onConfigChanged (setConfig s chatId c) chatId
  | .subroutineCreated chatId config =>
    if (s.configs chatId).isNone then
      onSubroutineCreated (setConfig s chatId (some config)) chatId
    else s
  | .tick chatId env => (onTick s chatId env).1

/-- Apply a sequence of events in order. -/
def applyEvents (s : RegistryState) (evs : List Event) : RegistryState :=
  evs.foldl applyEvent s

/-- True when the stored config for a session is missing or declares
running false. -/
def configNotRunning (s : RegistryState) (chatId : String) : Bool :=
  match s.configs chatId with
  | none => true
  | some config => !config.running

/- ── Helper lemmas ─────────────────────────────────────────────────────── -/

theorem chPrefix_nil_left (l : List Char) : chPrefix [] l = true := by
  cases l <;> rfl

theorem chInfix_nil_left (l : List Char) : chInfix [] l = true := by
  cases l <;> simp [chInfix, chPrefix_nil_left]

/-- Every string includes the empty pattern (JS includes semantics). -/
theorem jsIncludes_empty_pat (s : String) : jsIncludes s "" = true :=
  chInfix_nil_left s.toList

/-- The empty string includes only the empty pattern. -/
theorem jsIncludes_of_empty (pat : String) : jsIncludes "" pat = true ↔ pat = "" := by
  cases pat with
  | mk data =>
    cases data with
    | nil => exact ⟨fun _ => rfl, fun _ => rfl⟩
    | cons a as =>
      simp only [jsIncludes, chInfix, chPrefix]
      simp [String.ext_iff]

/- ── Claim C3 ──────────────────────────────────────────────────────────── -/

/-- A tool-trigger configuration polling a counter tool for the digit 0. -/
def cfgToolZero : SubroutineConfig :=
  { defaultSubroutineConfig with
    triggerType := "tool", toolName := "check_counter", toolCondition := "0" }

/-- C3 counterexample: with toolCondition the digit 0 and a successful
non-error tool result 0, the stringification of the result does contain
the condition, yet the evaluator returns false — the source first
coerces the falsy result to the empty string via result || empty string
and only then stringifies. -/
theorem C3_falsy_result_refuted :
    evaluateToolTrigger cfgToolZero true (.ret (.vNum 0)) = false ∧
    jsIncludes (jsString (.vNum 0)) cfgToolZero.toolCondition = true := by
  constructor <;> decide

/-- C3 (amended): for a tool trigger with non-empty toolName whose
invocation returns a non-error value v, the evaluator matches
toolCondition against the stringification of (v || empty string): for a
truthy v this is the stringification of v itself, but for a falsy v
(0, false, the empty string, null, undefined) the comparison is against
the empty string, so the evaluator returns true exactly when
toolCondition is empty. -/
theorem C3_tool_result_matching (config : SubroutineConfig) (v : JSValue)
    (hname : config.toolName ≠ "") (hval : isErrorValue v = false) :
    (jsTruthy v = true →
      evaluateToolTrigger config true (.ret v) =
        jsIncludes (jsString v) config.toolCondition) ∧
    (jsTruthy v = false →
      (evaluateToolTrigger config true (.ret v) = true ↔
        config.toolCondition = "")) := by
  constructor
  · intro ht
    simp [evaluateToolTrigger, hname, hval, jsOr, ht]
  · intro hf
    simp [evaluateToolTrigger, hname, hval, jsOr, hf, jsString]
    exact jsIncludes_of_empty config.toolCondition

/-- C3 witness: the amended matching law evaluated at a truthy result
containing the condition and at the falsy result 0. -/
theorem C3_tool_result_matching_spot :
    evaluateToolTrigger cfgToolZero true (.ret (.vStr "count 03")) = true ∧
    evaluateToolTrigger cfgToolZero true (.ret (.vNum 0)) = false := by
  have h1 := (C3_tool_result_matching cfgToolZero (.vStr "count 03")
    (by decide) (by decide)).1 (by decide)
  have h2 := (C3_tool_result_matching cfgToolZero (.vNum 0)
    (by decide) (by decide)).2 (by decide)
  constructor
  · rw [h1]; decide
  · rcases h : evaluateToolTrigger cfgToolZero true (.ret (.vNum 0)) with _ | _
    · rfl
    · exact absurd ((h2.mp h)) (by decide)

/- ── Claim C10 ─────────────────────────────────────────────────────────── -/

/-- A tool-trigger configuration left at the default (empty) condition. -/
def cfgToolDefaultCond : SubroutineConfig :=
  { defaultSubroutineConfig with
    triggerType := "tool", toolName := "check_email" }

/-- C10: with an empty toolCondition — which is exactly what the
defaultSubroutineConfig factory produces — the tool trigger fires on
every successful non-error poll, because every string includes the empty
substring; a tool trigger left at the default condition therefore
behaves like a time trigger whenever its poll succeeds. -/
theorem C10_empty_condition_always_fires (config : SubroutineConfig) (v : JSValue)
    (hname : config.toolName ≠ "") (hcond : config.toolCondition = "")
    (hval : isErrorValue v = false) :
    evaluateToolTrigger config true (.ret v) = true ∧
    defaultSubroutineConfig.toolCondition = "" := by
  refine ⟨?_, rfl⟩
  simp [evaluateToolTrigger, hname, hval, hcond, jsIncludes_empty_pat]

/-- C10 witness: the default-condition trigger fires on a successful
poll returning the string idle, and even on a falsy result. -/
theorem C10_empty_condition_always_fires_spot :
    evaluateToolTrigger cfgToolDefaultCond true (.ret (.vStr "idle")) = true ∧
    evaluateToolTrigger cfgToolDefaultCond true (.ret (.vBool false)) = true :=
  ⟨(C10_empty_condition_always_fires cfgToolDefaultCond (.vStr "idle")
      (by decide) rfl (by decide)).1,
   (C10_empty_condition_always_fires cfgToolDefaultCond (.vBool false)
      (by decide) rfl (by decide)).1⟩

/- ── Claim C7 ──────────────────────────────────────────────────────────── -/

/-- An api-trigger configuration polling an external URL. -/
def cfgApiPoll : SubroutineConfig :=
  { defaultSubroutineConfig with
    triggerType := "api", apiUrl := "https://example.com/pending" }

/-- C7: with a non-empty apiUrl, the api trigger returns false exactly
when the trimmed, lower-cased response body is one of the empty
sentinels (so NONE in any letter case does not fire), returns true for
any other body such as pending, and treats any fetch failure as
do-not-fire. -/
theorem C7_api_trigger_sentinels (config : SubroutineConfig)
    (hurl : config.apiUrl ≠ "") :
    (∀ body, evaluateApiTrigger config (.ok body) = false ↔
      jsToLower (jsTrim body) ∈ emptySentinels) ∧
    (∀ e, evaluateApiTrigger config (.error e) = false) ∧
    evaluateApiTrigger config (.ok " NoNe ") = false ∧
    evaluateApiTrigger config (.ok "pending") = true := by
  refine ⟨fun body => ?_, fun e => ?_, ?_, ?_⟩
  · simp [evaluateApiTrigger, hurl]
  · simp [evaluateApiTrigger, hurl]
  · simp [evaluateApiTrigger, hurl]; decide
  · simp [evaluateApiTrigger, hurl]; decide

/-- C7 witness: the sentinel law evaluated on the concrete poll URL
configuration, for a cased sentinel body, a pending body, and a failed
fetch. -/
theorem C7_api_trigger_sentinels_spot :
    evaluateApiTrigger cfgApiPoll (.ok " NoNe ") = false ∧
    evaluateApiTrigger cfgApiPoll (.ok "pending") = true ∧
    evaluateApiTrigger cfgApiPoll (.error "timeout") = false :=
  ⟨(C7_api_trigger_sentinels cfgApiPoll (by decide)).2.2.1,
   (C7_api_trigger_sentinels cfgApiPoll (by decide)).2.2.2,
   (C7_api_trigger_sentinels cfgApiPoll (by decide)).2.1 "timeout"⟩

/- ── Claim C8 ──────────────────────────────────────────────────────────── -/

/-- C8: for a session with an existing config and no loop yet, startLoop
arms exactly one new recurring timer at max(intervalSeconds, 5) seconds
(stored in milliseconds), records the LoopState with the guard down, and
in particular intervalSeconds = 1 arms the timer at 5000 ms, not 1000. -/
theorem C8_interval_clamped (s : RegistryState) (chatId : String)
    (config : SubroutineConfig) (hid : chatId ≠ "")
    (hno : s.loops chatId = none) (hc : s.configs chatId = some config) :
    (startLoop s chatId).timers =
      s.timers ++ [⟨s.nextId, chatId, max config.intervalSeconds 5 * 1000⟩] ∧
    (startLoop s chatId).loops chatId = some ⟨s.nextId, false⟩ ∧
    (config.intervalSeconds = 1 → max config.intervalSeconds 5 * 1000 = 5000) := by
  refine ⟨?_, ?_, fun h => by rw [h]; rfl⟩ <;>
    simp [startLoop, hid, hno, hc]

/-- A config asking for a one-second interval. -/
def cfgOneSecond : SubroutineConfig :=
  { defaultSubroutineConfig with intervalSeconds := 1, running := true }

/-- A registry holding only the one-second config, with no loop yet. -/
def regOneSecond : RegistryState :=
  { initialState with
    configs := fun j => if j = "alpha" then some cfgOneSecond else none }

/-- C8 witness: starting the loop for the one-second config arms a
single timer at 5000 ms. -/
theorem C8_interval_clamped_spot :
    (startLoop regOneSecond "alpha").timers = [⟨0, "alpha", 5000⟩] ∧
    (startLoop regOneSecond "alpha").loops "alpha" = some ⟨0, false⟩ := by
  have h := C8_interval_clamped regOneSecond "alpha" cfgOneSecond
    (by decide) rfl rfl
  exact ⟨by rw [h.1]; rfl, h.2.1⟩

/- ── Claim C5 ──────────────────────────────────────────────────────────── -/

/-- C5: a tick arriving while the LoopState guard isGenerating is up is
dropped entirely — the handler returns with the registry state unchanged
and an empty effect trace, so it evaluates no trigger, invokes no
collaborator, starts no second cycle, and queues nothing.  Hence over an
overlapping pair of ticks, every collaborator call comes from the first
tick alone. -/
theorem C5_overlapping_tick_dropped (s : RegistryState) (chatId : String)
    (env : TickEnv) (ls : LoopState) (hls : s.loops chatId = some ls)
    (hgen : ls.isGenerating = true) :
    onTick s chatId env = (s, []) := by
  unfold onTick
  rw [hls]
  simp [hgen]

/-- A running time-trigger config. -/
def cfgTimeRunning : SubroutineConfig :=
  { defaultSubroutineConfig with running := true }

/-- A simple tick environment: one generation with no tool calls. -/
def envOneGen : TickEnv where
  toolManagerOk := true
  triggerInvoke := .ret (.vStr "ok")
  triggerFetch := .ok "ok"
  hb := { loadChat := some [], gen := fun _ => .ok ⟨[]⟩,
          invoke := fun _ _ => .ret (.vStr "done") }

/-- The registry with the alpha loop idle (guard down). -/
def regIdle : RegistryState where
  configs := fun j => if j = "alpha" then some cfgTimeRunning else none
  loops := fun j => if j = "alpha" then some ⟨0, false⟩ else none
  timers := [⟨0, "alpha", 300000⟩]
  nextId := 1
  notifications := [("alpha", true)]

/-- The same registry as observed mid-cycle: the guard is up. -/
def regBusy : RegistryState :=
  { regIdle with loops := fun j => if j = "alpha" then some ⟨0, true⟩ else none }

/-- C5 witness: the overlapping tick against the mid-cycle state yields
no effects and no state change, and the pair of ticks performs exactly
the one generation of the first tick. -/
theorem C5_overlapping_tick_dropped_spot :
    onTick regBusy "alpha" envOneGen = (regBusy, []) ∧
    genCount ((onTick regIdle "alpha" envOneGen).2 ++
              (onTick regBusy "alpha" envOneGen).2) = 1 := by
  have h := C5_overlapping_tick_dropped regBusy "alpha" envOneGen ⟨0, true⟩ rfl rfl
  refine ⟨h, ?_⟩
  have h2 : (onTick regBusy "alpha" envOneGen).2 = [] := by rw [h]
  rw [h2]
  decide

/- ── Tool-loop lemmas ──────────────────────────────────────────────────── -/

/-- The turns the tool-execution loop appends: one result turn per
request whose invocation returned, none for a throwing request. -/
def toolTurns (env : HeartbeatEnv) (calls : List ToolCall) : List Turn :=
  calls.filterMap fun tc =>
    match env.invoke tc.fname (argOf tc) with
    | .ret v => some (toolResultTurn tc v)
    | .thrown _ => none

theorem runToolCalls_chat (env : HeartbeatEnv) (calls : List ToolCall) :
    ∀ chat0, (runToolCalls env calls chat0).1 = chat0 ++ toolTurns env calls := by
  induction calls with
  | nil => intro chat0; simp [runToolCalls, toolTurns]
  | cons tc rest ih =>
    intro chat0
    cases h : env.invoke tc.fname (argOf tc) with
    | ret v => simp [runToolCalls, h, ih, toolTurns, List.filterMap_cons]
    | thrown e => simp [runToolCalls, h, ih, toolTurns, List.filterMap_cons]

theorem runToolCalls_invoked (env : HeartbeatEnv) (calls : List ToolCall) :
    ∀ chat0, invokedTools (runToolCalls env calls chat0).2 =
      calls.map fun tc => (tc.fname, argOf tc) := by
  induction calls with
  | nil => intro chat0; simp [runToolCalls, invokedTools]
  | cons tc rest ih =>
    intro chat0
    cases h : env.invoke tc.fname (argOf tc) with
    | ret v => simp [runToolCalls, h, invokedTools, List.filterMap_cons] at ih ⊢; exact ih _
    | thrown e => simp [runToolCalls, h, invokedTools, List.filterMap_cons] at ih ⊢; exact ih _

theorem runToolCalls_saveCount (env : HeartbeatEnv) (calls : List ToolCall) :
    ∀ chat0, saveCount (runToolCalls env calls chat0).2 =
      calls.countP fun tc => (env.invoke tc.fname (argOf tc)).isRet := by
  induction calls with
  | nil => intro chat0; simp [runToolCalls, saveCount]
  | cons tc rest ih =>
    intro chat0
    cases h : env.invoke tc.fname (argOf tc) with
    | ret v =>
      simp [runToolCalls, h, saveCount, List.countP_cons, InvokeOutcome.isRet] at ih ⊢
      exact ih _
    | thrown e =>
      simp [runToolCalls, h, saveCount, List.countP_cons, InvokeOutcome.isRet] at ih ⊢
      exact ih _

theorem runToolCalls_genCount (env : HeartbeatEnv) (calls : List ToolCall) :
    ∀ chat0, genCount (runToolCalls env calls chat0).2 = 0 := by
  induction calls with
  | nil => intro chat0; simp [runToolCalls, genCount]
  | cons tc rest ih =>
    intro chat0
    cases h : env.invoke tc.fname (argOf tc) with
    | ret v => simp [runToolCalls, h, genCount, List.countP_cons] at ih ⊢; exact ih _
    | thrown e => simp [runToolCalls, h, genCount, List.countP_cons] at ih ⊢; exact ih _

theorem runToolCalls_thrown_logged (env : HeartbeatEnv) (tc : ToolCall) (e : String)
    (hti : env.invoke tc.fname (argOf tc) = .thrown e) :
    ∀ (calls : List ToolCall) (chat0 : List Turn), tc ∈ calls →
      Effect.logError ("Tool execution failed: " ++ tc.fname) ∈
        (runToolCalls env calls chat0).2 := by
  intro calls
  induction calls with
  | nil => intro chat0 h; cases h
  | cons hd rest ih =>
    intro chat0 hmem
    rcases List.mem_cons.mp hmem with hEq | hTail
    · subst hEq
      simp [runToolCalls, hti]
    · cases h : env.invoke hd.fname (argOf hd) with
      | ret v => simp [runToolCalls, h]; exact ih _ hTail
      | thrown e2 => simp [runToolCalls, h]; exact Or.inr (ih _ hTail)

/- ── Claim C2 ──────────────────────────────────────────────────────────── -/

/-- A tool call whose invocation will throw. -/
def tcBoom : ToolCall := ⟨"call_9", "send_email", ""⟩

/-- A cycle environment whose single tool-call request throws. -/
def envBoom : HeartbeatEnv where
  loadChat := some []
  gen := fun k => if k = 0 then .ok ⟨[tcBoom]⟩ else .ok ⟨[]⟩
  invoke := fun _ _ => .thrown "boom"

/-- C2 counterexample: the cycle does invoke the throwing request (the
invocation appears in the trace), yet the transcript gains no turn for
it — only the heartbeat turn is ever appended and only its single write
is performed — refuting the claim that a turn recording the error text
is appended and persisted for requests whose invocation throws; the
source catch only logs and moves on. -/
theorem C2_thrown_appends_no_turn :
    invokedTools (fireHeartbeat defaultSubroutineConfig envBoom).trace =
      [("send_email", "\x7b\x7d")] ∧
    (fireHeartbeat defaultSubroutineConfig envBoom).chat =
      [heartbeatTurn defaultSubroutineConfig] ∧
    saveCount (fireHeartbeat defaultSubroutineConfig envBoom).trace = 1 ∧
    Effect.logError "Tool execution failed: send_email" ∈
      (fireHeartbeat defaultSubroutineConfig envBoom).trace := by
  refine ⟨?_, ?_, ?_, ?_⟩ <;> decide

/-- C2 (amended): the tool-execution loop invokes the collaborator for
every request in order, with the request name and raw argument string,
even after earlier failures; it appends one turn per request whose
invocation returns (recording the tool name and the stringified result,
Error instances included) and persists after each such turn; a request
whose invocation throws is only logged — no turn and no write for it —
and the loop moves to the next request.  Within a fired cycle carrying
tool calls, this loop trace sits between the heartbeat write and the
second generation. -/
theorem C2_tool_loop (env : HeartbeatEnv) (calls : List ToolCall)
    (chat0 : List Turn) :
    invokedTools (runToolCalls env calls chat0).2 =
      (calls.map fun tc => (tc.fname, argOf tc)) ∧
    (runToolCalls env calls chat0).1 = chat0 ++ toolTurns env calls ∧
    saveCount (runToolCalls env calls chat0).2 =
      (calls.countP fun tc => (env.invoke tc.fname (argOf tc)).isRet) ∧
    ∀ (config : SubroutineConfig) (c0 : List Turn) (r0 : GenResult),
      env.loadChat = some c0 → env.gen 0 = .ok r0 → r0.tool_calls = calls →
      calls.isEmpty = false →
      ∃ pre post, (fireHeartbeat config env).trace =
        pre ++ (runToolCalls env calls (c0 ++ [heartbeatTurn config])).2 ++ post := by
  refine ⟨runToolCalls_invoked env calls chat0, runToolCalls_chat env calls chat0,
    runToolCalls_saveCount env calls chat0, ?_⟩
  intro config c0 r0 hl hg0 hcalls hne
  subst hcalls
  cases hg1 : env.gen 1 with
  | error e =>
    refine ⟨[.saveChat (c0 ++ [heartbeatTurn config]), .generate],
            [.generate, .logError ("Heartbeat generation failed: " ++ e)], ?_⟩
    simp [fireHeartbeat, hl, hg0, hne, hg1]
  | ok r1 =>
    refine ⟨[.saveChat (c0 ++ [heartbeatTurn config]), .generate],
            [Effect.generate] ++ (autoQueueStep config env 2 r1
              (runToolCalls env r0.tool_calls (c0 ++ [heartbeatTurn config])).1).trace,
            ?_⟩
    simp [fireHeartbeat, hl, hg0, hne, hg1]

/-- A tool call whose invocation succeeds. -/
def tcPing : ToolCall := ⟨"call_1", "web_search", "[1,2]"⟩

/-- A cycle environment with one succeeding and one throwing request. -/
def envMix : HeartbeatEnv where
  loadChat := some []
  gen := fun k => if k = 0 then .ok ⟨[tcPing, tcBoom]⟩ else .ok ⟨[]⟩
  invoke := fun n _ => if n = "web_search" then .ret (.vStr "headline") else .thrown "boom"

/-- C2 witness: the amended loop law evaluated on the mixed environment:
both requests are invoked in order, exactly the succeeding one gains a
turn and a write, and the loop trace sits inside the fired cycle. -/
theorem C2_tool_loop_spot :
    invokedTools (runToolCalls envMix [tcPing, tcBoom] []).2 =
      [("web_search", "[1,2]"), ("send_email", "\x7b\x7d")] ∧
    (runToolCalls envMix [tcPing, tcBoom] []).1 =
      [toolResultTurn tcPing (.vStr "headline")] ∧
    saveCount (runToolCalls envMix [tcPing, tcBoom] []).2 = 1 ∧
    ∃ pre post, (fireHeartbeat defaultSubroutineConfig envMix).trace =
      pre ++ (runToolCalls envMix [tcPing, tcBoom]
        [heartbeatTurn defaultSubroutineConfig]).2 ++ post := by
  have h := C2_tool_loop envMix [tcPing, tcBoom] []
  refine ⟨?_, ?_, ?_, ?_⟩
  · rw [h.1]; decide
  · rw [h.2.1]; decide
  · rw [h.2.2.1]; decide
  · exact h.2.2.2 defaultSubroutineConfig [] ⟨[tcPing, tcBoom]⟩ rfl rfl rfl rfl

/- ── Claim C1 ──────────────────────────────────────────────────────────── -/

/-- A second succeeding tool call for the two-call scenario. -/
def tcFetch : ToolCall := ⟨"call_2", "fetch_page", ""⟩

/-- A cycle environment whose first generation carries exactly two
tool-call requests, both of which succeed, and whose second generation
carries none. -/
def envTwoCalls : HeartbeatEnv where
  loadChat := some []
  gen := fun k => if k = 0 then .ok ⟨[tcPing, tcFetch]⟩ else .ok ⟨[]⟩
  invoke := fun n _ =>
    if n = "web_search" then .ret (.vStr "headline")
    else .ret (.vStr "page body")

/-- C1 counterexample: with exactly two succeeding tool-call requests
and auto-queue off (so every write of the cycle happens before any
auto-queue step), the cycle performs exactly three persisted transcript
writes — the heartbeat write plus one write per tool result — not the
four the claim states. -/
theorem C1_four_writes_refuted :
    envTwoCalls.gen 0 = .ok ⟨[tcPing, tcFetch]⟩ ∧
    (envTwoCalls.invoke tcPing.fname (argOf tcPing)).isRet = true ∧
    (envTwoCalls.invoke tcFetch.fname (argOf tcFetch)).isRet = true ∧
    defaultSubroutineConfig.autoQueue = false ∧
    saveCount (fireHeartbeat defaultSubroutineConfig envTwoCalls).trace = 3 ∧
    ¬ saveCount (fireHeartbeat defaultSubroutineConfig envTwoCalls).trace = 4 := by
  refine ⟨rfl, ?_, ?_, ?_, ?_, ?_⟩ <;> decide

/-- C1 (amended): for a generation result carrying exactly two
tool-call requests whose invocations both return, one full heartbeat
cycle performs exactly three persisted transcript writes before any
auto-queue step — the heartbeat write plus two further writes —
appending 1 heartbeat turn and 2 tool-result turns in request order and
then invoking generation a second time; the auto-queue step only runs
after that second generation. -/
theorem C1_two_call_cycle_writes (config : SubroutineConfig) (env : HeartbeatEnv)
    (c0 : List Turn) (t1 t2 : ToolCall) (r0 r1 : GenResult) (v1 v2 : JSValue)
    (hl : env.loadChat = some c0) (hg0 : env.gen 0 = .ok r0)
    (hcalls : r0.tool_calls = [t1, t2])
    (h1 : env.invoke t1.fname (argOf t1) = .ret v1)
    (h2 : env.invoke t2.fname (argOf t2) = .ret v2)
    (hg1 : env.gen 1 = .ok r1) :
    (fireHeartbeat config env).trace =
      [.saveChat (c0 ++ [heartbeatTurn config]), .generate,
       .invokeTool t1.fname (argOf t1),
       .saveChat (c0 ++ [heartbeatTurn config, toolResultTurn t1 v1]),
       .invokeTool t2.fname (argOf t2),
       .saveChat (c0 ++ [heartbeatTurn config, toolResultTurn t1 v1,
                         toolResultTurn t2 v2]),
       .generate] ++
      (autoQueueStep config env 2 r1
        (c0 ++ [heartbeatTurn config, toolResultTurn t1 v1,
                toolResultTurn t2 v2])).trace ∧
    saveCount
      [Effect.saveChat (c0 ++ [heartbeatTurn config]), .generate,
       .invokeTool t1.fname (argOf t1),
       .saveChat (c0 ++ [heartbeatTurn config, toolResultTurn t1 v1]),
       .invokeTool t2.fname (argOf t2),
       .saveChat (c0 ++ [heartbeatTurn config, toolResultTurn t1 v1,
                         toolResultTurn t2 v2]),
       .generate] = 3 := by
  constructor
  · simp [fireHeartbeat, hl, hg0, hcalls, hg1, runToolCalls, h1, h2]
  · simp [saveCount, List.countP_cons]

/-- C1 witness: the amended write-count law evaluated on the concrete
two-call environment; with auto-queue off the whole-cycle trace is
exactly the pre-auto-queue trace, with its three writes. -/
theorem C1_two_call_cycle_writes_spot :
    (fireHeartbeat defaultSubroutineConfig envTwoCalls).trace =
      [.saveChat [heartbeatTurn defaultSubroutineConfig], .generate,
       .invokeTool "web_search" "[1,2]",
       .saveChat [heartbeatTurn defaultSubroutineConfig,
                  toolResultTurn tcPing (.vStr "headline")],
       .invokeTool "fetch_page" "\x7b\x7d",
       .saveChat [heartbeatTurn defaultSubroutineConfig,
                  toolResultTurn tcPing (.vStr "headline"),
                  toolResultTurn tcFetch (.vStr "page body")],
       .generate] := by
  have h := C1_two_call_cycle_writes defaultSubroutineConfig envTwoCalls []
    tcPing tcFetch ⟨[tcPing, tcFetch]⟩ ⟨[]⟩ (.vStr "headline") (.vStr "page body")
    rfl rfl rfl rfl rfl rfl
  rw [h.1]
  decide

/- ── Cycle-shape lemmas ────────────────────────────────────────────────── -/

theorem genCount_append (a b : List Effect) :
    genCount (a ++ b) = genCount a + genCount b := by
  simp [genCount, List.countP_append]

theorem saveCount_append (a b : List Effect) :
    saveCount (a ++ b) = saveCount a + saveCount b := by
  simp [saveCount, List.countP_append]

/-- The shape of a fired cycle whose first generation carries no tool
calls: heartbeat write, one generation, then the auto-queue step on that
sole (hence final) result. -/
theorem fireHeartbeat_no_tools (config : SubroutineConfig) (env : HeartbeatEnv)
    (c0 : List Turn) (r0 : GenResult) (hl : env.loadChat = some c0)
    (hg0 : env.gen 0 = .ok r0) (hne : r0.tool_calls.isEmpty = true) :
    fireHeartbeat config env =
      ⟨(autoQueueStep config env 1 r0 (c0 ++ [heartbeatTurn config])).chat,
       [.saveChat (c0 ++ [heartbeatTurn config]), .generate] ++
         (autoQueueStep config env 1 r0 (c0 ++ [heartbeatTurn config])).trace,
       (autoQueueStep config env 1 r0 (c0 ++ [heartbeatTurn config])).ending,
       false⟩ := by
  simp [fireHeartbeat, hl, hg0, hne]

/-- The shape of a fired cycle whose first generation carries tool
calls and whose second generation returns: heartbeat write, first
generation, the tool-execution loop, second generation, then the
auto-queue step on the second (final) result. -/
theorem fireHeartbeat_tools (config : SubroutineConfig) (env : HeartbeatEnv)
    (c0 : List Turn) (r0 r1 : GenResult) (hl : env.loadChat = some c0)
    (hg0 : env.gen 0 = .ok r0) (hne : r0.tool_calls.isEmpty = false)
    (hg1 : env.gen 1 = .ok r1) :
    fireHeartbeat config env =
      ⟨(autoQueueStep config env 2 r1
          (runToolCalls env r0.tool_calls (c0 ++ [heartbeatTurn config])).1).chat,
       [.saveChat (c0 ++ [heartbeatTurn config]), .generate] ++
         (runToolCalls env r0.tool_calls (c0 ++ [heartbeatTurn config])).2 ++
         [.generate] ++
         (autoQueueStep config env 2 r1
           (runToolCalls env r0.tool_calls (c0 ++ [heartbeatTurn config])).1).trace,
       (autoQueueStep config env 2 r1
         (runToolCalls env r0.tool_calls (c0 ++ [heartbeatTurn config])).1).ending,
       false⟩ := by
  simp [fireHeartbeat, hl, hg0, hne, hg1]

/-- The auto-queue step when it fires: one continuation turn appended,
one write, one extra generation (whether or not that generation then
fails). -/
theorem autoQueueStep_fires (config : SubroutineConfig) (env : HeartbeatEnv)
    (k : Nat) (r : GenResult) (chat : List Turn)
    (hq : config.autoQueue = true) (hr : r.tool_calls = []) :
    (autoQueueStep config env k r chat).chat = chat ++ [autoQueueTurn config] ∧
    genCount (autoQueueStep config env k r chat).trace = 1 ∧
    saveCount (autoQueueStep config env k r chat).trace = 1 := by
  cases hg : env.gen k <;>
    simp [autoQueueStep, hq, hr, hg, genCount, saveCount, List.countP_cons]

/-- The auto-queue step when the final result still carries tool calls:
nothing happens. -/
theorem autoQueueStep_no_fire (config : SubroutineConfig) (env : HeartbeatEnv)
    (k : Nat) (r : GenResult) (chat : List Turn)
    (hr : r.tool_calls.isEmpty = false) :
    autoQueueStep config env k r chat = ⟨chat, [], .completed, false⟩ := by
  simp [autoQueueStep, hr]

/- ── Claim C4 ──────────────────────────────────────────────────────────── -/

/-- C4: with autoQueue on, when the final generation result of the cycle
carries zero tool calls, exactly one continuation turn (body
autoQueuePrompt, the literal continuation default when the prompt is
empty) is appended and generation runs exactly one additional time; when
the final result carries one or more tool calls, no continuation turn is
appended and no extra generation happens.  The final result is the sole
generation when it carried no tool calls, and the post-tool second
generation otherwise, so the base generation counts are 1 and 2. -/
theorem C4_auto_queue_continuation (config : SubroutineConfig)
    (env : HeartbeatEnv) (c0 : List Turn) (r0 r1 : GenResult)
    (hq : config.autoQueue = true) (hl : env.loadChat = some c0)
    (hg0 : env.gen 0 = .ok r0) (hg1 : env.gen 1 = .ok r1) :
    (r0.tool_calls = [] →
      (fireHeartbeat config env).chat =
        c0 ++ [heartbeatTurn config, autoQueueTurn config] ∧
      genCount (fireHeartbeat config env).trace = 2) ∧
    (∀ t ts, r0.tool_calls = t :: ts → r1.tool_calls = [] →
      (fireHeartbeat config env).chat =
        c0 ++ [heartbeatTurn config] ++ toolTurns env (t :: ts) ++
          [autoQueueTurn config] ∧
      genCount (fireHeartbeat config env).trace = 3) ∧
    (∀ t ts u us, r0.tool_calls = t :: ts → r1.tool_calls = u :: us →
      (fireHeartbeat config env).chat =
        c0 ++ [heartbeatTurn config] ++ toolTurns env (t :: ts) ∧
      genCount (fireHeartbeat config env).trace = 2) := by
  refine ⟨?_, ?_, ?_⟩
  · intro h0
    have hne : r0.tool_calls.isEmpty = true := by rw [h0]; rfl
    have hfb := fireHeartbeat_no_tools config env c0 r0 hl hg0 hne
    have haq := autoQueueStep_fires config env 1 r0
      (c0 ++ [heartbeatTurn config]) hq h0
    rw [hfb]
    constructor
    · show (autoQueueStep config env 1 r0 (c0 ++ [heartbeatTurn config])).chat = _
      rw [haq.1]
      simp
    · show genCount ([_, _] ++ _) = 2
      rw [genCount_append, haq.2.1]
      rfl
  · intro t ts h0 h1
    have hne : r0.tool_calls.isEmpty = false := by rw [h0]; rfl
    have hfb := fireHeartbeat_tools config env c0 r0 r1 hl hg0 hne hg1
    have hchat := runToolCalls_chat env r0.tool_calls (c0 ++ [heartbeatTurn config])
    have hgen := runToolCalls_genCount env r0.tool_calls (c0 ++ [heartbeatTurn config])
    have haq := autoQueueStep_fires config env 2 r1
      (runToolCalls env r0.tool_calls (c0 ++ [heartbeatTurn config])).1 hq h1
    rw [hfb]
    constructor
    · show (autoQueueStep config env 2 r1 _).chat = _
      rw [haq.1, hchat, h0]
    · show genCount ([_, _] ++ _ ++ [_] ++ _) = 3
      rw [genCount_append, genCount_append, genCount_append, hgen, haq.2.1]
      rfl
  · intro t ts u us h0 h1
    have hne : r0.tool_calls.isEmpty = false := by rw [h0]; rfl
    have hne1 : r1.tool_calls.isEmpty = false := by rw [h1]; rfl
    have hfb := fireHeartbeat_tools config env c0 r0 r1 hl hg0 hne hg1
    have hchat := runToolCalls_chat env r0.tool_calls (c0 ++ [heartbeatTurn config])
    have hgen := runToolCalls_genCount env r0.tool_calls (c0 ++ [heartbeatTurn config])
    have haq := autoQueueStep_no_fire config env 2 r1
      (runToolCalls env r0.tool_calls (c0 ++ [heartbeatTurn config])).1 hne1
    rw [hfb, haq]
    constructor
    · show (runToolCalls env r0.tool_calls (c0 ++ [heartbeatTurn config])).1 = _
      rw [hchat, h0]
    · show genCount ([_, _] ++ _ ++ [_] ++ _) = 2
      rw [genCount_append, genCount_append, genCount_append, hgen]
      rfl

/-- An auto-queue config with an empty prompt, exercising the literal
default continuation prompt. -/
def cfgAq : SubroutineConfig :=
  { defaultSubroutineConfig with autoQueue := true, autoQueuePrompt := "", running := true }

/-- A cycle environment whose generations never carry tool calls. -/
def envAq : HeartbeatEnv where
  loadChat := some []
  gen := fun _ => .ok ⟨[]⟩
  invoke := fun _ _ => .ret (.vStr "unused")

/-- C4 witness: with auto-queue on and a final result carrying zero tool
calls, the cycle appends exactly one continuation turn — whose body is
the default prompt here — and generates exactly one additional time. -/
theorem C4_auto_queue_continuation_spot :
    (fireHeartbeat cfgAq envAq).chat = [heartbeatTurn cfgAq, autoQueueTurn cfgAq] ∧
    (autoQueueTurn cfgAq).mes = "Continue or call the finish tool if done." ∧
    genCount (fireHeartbeat cfgAq envAq).trace = 2 := by
  have h := (C4_auto_queue_continuation cfgAq envAq [] ⟨[]⟩ ⟨[]⟩ rfl rfl rfl rfl).1 rfl
  exact ⟨h.1, by decide, h.2⟩

/- ── Claim C6 ──────────────────────────────────────────────────────────── -/

/-- C6: for a running session whose config is present, a tick leaves the
settled registry state — the stored config with its running flag, the
LoopState map, and the armed timers — unchanged, whatever the
collaborator outcomes; the cycle clears the isGenerating guard on every
exit path (the value after the finally block is always false); and each
failure mode is caught, logged and ends the cycle early rather than
propagating: a transcript-load failure ends with only its logged error,
a generation failure ends as caught with its error logged, and a
throwing tool invocation has its failure logged while the cycle goes
on. -/
theorem C6_failures_contained (s : RegistryState) (chatId : String)
    (env : TickEnv) (ls : LoopState) (config : SubroutineConfig)
    (hls : s.loops chatId = some ls) (hc : s.configs chatId = some config) :
    (onTick s chatId env).1 = s ∧
    (fireHeartbeat config env.hb).guardAfter = false ∧
    (env.hb.loadChat = none →
      (fireHeartbeat config env.hb).ending = .loadFailed ∧
      (fireHeartbeat config env.hb).trace = [.logError "Failed to load chat data"]) ∧
    (∀ c0 e, env.hb.loadChat = some c0 → env.hb.gen 0 = .error e →
      (fireHeartbeat config env.hb).ending = .caught e ∧
      Effect.logError ("Heartbeat generation failed: " ++ e) ∈
        (fireHeartbeat config env.hb).trace) ∧
    (∀ c0 r0 tc e, env.hb.loadChat = some c0 → env.hb.gen 0 = .ok r0 →
      tc ∈ r0.tool_calls → env.hb.invoke tc.fname (argOf tc) = .thrown e →
      Effect.logError ("Tool execution failed: " ++ tc.fname) ∈
        (fireHeartbeat config env.hb).trace) := by
  refine ⟨?_, ?_, ?_, ?_, ?_⟩
  · unfold onTick
    rw [hls, hc]
    cases hgen : ls.isGenerating with
    | true => simp [hgen]
    | false =>
      simp only [hgen, Bool.false_eq_true, if_false]
      split <;> rfl
  · cases hl : env.hb.loadChat with
    | none => simp [fireHeartbeat, hl]
    | some c0 =>
      cases hg : env.hb.gen 0 with
      | error e => simp [fireHeartbeat, hl, hg]
      | ok r0 =>
        cases hne : r0.tool_calls.isEmpty with
        | true => simp [fireHeartbeat, hl, hg, hne]
        | false =>
          cases hg1 : env.hb.gen 1 with
          | error e => simp [fireHeartbeat, hl, hg, hne, hg1]
          | ok r1 => simp [fireHeartbeat, hl, hg, hne, hg1]
  · intro hl
    simp [fireHeartbeat, hl]
  · intro c0 e hl hg
    simp [fireHeartbeat, hl, hg]
  · intro c0 r0 tc e hl hg hmem hti
    have hlog := runToolCalls_thrown_logged env.hb tc e hti r0.tool_calls
      (c0 ++ [heartbeatTurn config]) hmem
    have hne : r0.tool_calls.isEmpty = false := by
      cases hcalls : r0.tool_calls with
      | nil => rw [hcalls] at hmem; cases hmem
      | cons a as => rfl
    cases hg1 : env.hb.gen 1 with
    | error e2 =>
      rw [fireHeartbeat]
      simp only [hl, hg, hne, hg1]
      simp [hlog]
    | ok r1 =>
      rw [fireHeartbeat]
      simp only [hl, hg, hne, hg1]
      simp [hlog]

/-- A tick environment whose chat-store load fails. -/
def envFailLoad : TickEnv where
  toolManagerOk := true
  triggerInvoke := .ret (.vStr "x")
  triggerFetch := .ok "x"
  hb := { loadChat := none, gen := fun _ => .error "net down",
          invoke := fun _ _ => .thrown "no tools" }

/-- C6 witness: against a failing chat store the tick leaves the settled
registry state unchanged, the guard ends down, and the cycle ends as a
logged load failure. -/
theorem C6_failures_contained_spot :
    (onTick regIdle "alpha" envFailLoad).1 = regIdle ∧
    (fireHeartbeat cfgTimeRunning envFailLoad.hb).guardAfter = false ∧
    (fireHeartbeat cfgTimeRunning envFailLoad.hb).ending = .loadFailed := by
  have h := C6_failures_contained regIdle "alpha" envFailLoad ⟨0, false⟩
    cfgTimeRunning rfl rfl
  exact ⟨h.1, h.2.1, (h.2.2.1 rfl).1⟩

/- ── Registry bookkeeping lemmas ───────────────────────────────────────── -/

theorem startLoop_configs (s : RegistryState) (id : String) :
    (startLoop s id).configs = s.configs := by
  unfold startLoop
  split
  · rfl
  split
  · rfl
  cases s.configs id <;> rfl

theorem stopLoop_configs (s : RegistryState) (id : String) :
    (stopLoop s id).configs = s.configs := by
  unfold stopLoop
  split
  · rfl
  cases s.loops id <;> rfl

theorem restartLoop_configs (s : RegistryState) (id : String) :
    (restartLoop s id).configs = s.configs := by
  unfold restartLoop
  by_cases h : (s.loops id).isSome = true <;>
    simp [h, startLoop_configs, stopLoop_configs]

theorem startLoop_loops_other (s : RegistryState) (id j : String) (hj : j ≠ id) :
    (startLoop s id).loops j = s.loops j := by
  unfold startLoop
  split
  · rfl
  split
  · rfl
  cases s.configs id with
  | none => rfl
  | some config => simp [hj]

theorem stopLoop_loops_other (s : RegistryState) (id j : String) (hj : j ≠ id) :
    (stopLoop s id).loops j = s.loops j := by
  unfold stopLoop
  split
  · rfl
  cases s.loops id with
  | none => rfl
  | some ls => simp [hj]

theorem restartLoop_loops_other (s : RegistryState) (id j : String) (hj : j ≠ id) :
    (restartLoop s id).loops j = s.loops j := by
  unfold restartLoop
  by_cases h : (s.loops id).isSome = true
  · simp only [h, if_true]
    rw [startLoop_loops_other _ _ _ hj, stopLoop_loops_other _ _ _ hj]
  · simp only [h, Bool.false_eq_true, if_false]
    rw [stopLoop_loops_other _ _ _ hj]

theorem onConfigChanged_configs (s : RegistryState) (id : String) :
    (onConfigChanged s id).configs = s.configs := by
  unfold onConfigChanged
  split
  · rfl
  cases hc : s.configs id with
  | none => exact stopLoop_configs s id
  | some config =>
    cases h1 : config.running <;> cases h2 : (s.loops id).isSome <;>
      simp [h1, h2, startLoop_configs, stopLoop_configs, restartLoop_configs]

theorem onSubroutineCreated_configs (s : RegistryState) (id : String) :
    (onSubroutineCreated s id).configs = s.configs := by
  unfold onSubroutineCreated
  split
  · rfl
  cases hc : s.configs id with
  | none => rfl
  | some config =>
    cases h1 : config.running <;> simp [h1, startLoop_configs]

theorem onConfigChanged_loops_other (s : RegistryState) (id j : String)
    (hj : j ≠ id) : (onConfigChanged s id).loops j = s.loops j := by
  unfold onConfigChanged
  split
  · rfl
  cases hc : s.configs id with
  | none => exact stopLoop_loops_other s id j hj
  | some config =>
    cases h1 : config.running <;> cases h2 : (s.loops id).isSome <;>
      simp [h1, h2, startLoop_loops_other _ _ _ hj, stopLoop_loops_other _ _ _ hj,
        restartLoop_loops_other _ _ _ hj]

theorem onSubroutineCreated_loops_other (s : RegistryState) (id j : String)
    (hj : j ≠ id) : (onSubroutineCreated s id).loops j = s.loops j := by
  unfold onSubroutineCreated
  split
  · rfl
  cases hc : s.configs id with
  | none => rfl
  | some config =>
    cases h1 : config.running <;> simp [h1, startLoop_loops_other _ _ _ hj]

/-- The settled state of a tick is either the input state or the input
state with the loop stopped (the config had disappeared). -/
theorem onTick_fst_cases (s : RegistryState) (id : String) (env : TickEnv) :
    (onTick s id env).1 = s ∨ (onTick s id env).1 = stopLoop s id := by
  unfold onTick
  cases hl : s.loops id with
  | none => exact Or.inl rfl
  | some ls =>
    cases hgen : ls.isGenerating with
    | true => simp [hgen]
    | false =>
      simp only [hgen, Bool.false_eq_true, if_false]
      cases hc : s.configs id with
      | none => exact Or.inr rfl
      | some config =>
        by_cases hf : (evalTrigger config env).1 = true <;> simp [hf]

/-- Stopping a loop leaves no LoopState for the target id, provided the
empty id never held one. -/
theorem stopLoop_loops_self (s : RegistryState) (id : String)
    (hempty : s.loops "" = none) : (stopLoop s id).loops id = none := by
  unfold stopLoop
  by_cases hid : id = ""
  · subst hid
    simp [hempty]
  · rw [if_neg hid]
    cases hl : s.loops id with
    | none => exact hl
    | some ls => simp

/- ── Timer bookkeeping invariant ───────────────────────────────────────── -/

/-- Membership in the per-session timer list. -/
theorem mem_timersFor {s : RegistryState} {id : String} {t : Timer} :
    t ∈ timersFor s id ↔ t ∈ s.timers ∧ t.chatId = id := by
  simp [timersFor]

/-- The structural timer invariant the registry maintains: the empty id
never holds a loop; a session with a LoopState has exactly one armed
timer, whose handle is the stored intervalId; a session without a
LoopState has no armed timer; every armed handle is below the fresh
counter; and handles are globally distinct. -/
structure TimerInv (s : RegistryState) : Prop where
  loopsEmpty : s.loops "" = none
  timersOne : ∀ id ls, s.loops id = some ls →
    ∃ ms, timersFor s id = [⟨ls.intervalId, id, ms⟩]
  timersNone : ∀ id, s.loops id = none → timersFor s id = []
  idsLt : ∀ t ∈ s.timers, t.id < s.nextId
  idsNodup : (s.timers.map Timer.id).Nodup

theorem initialState_timerInv : TimerInv initialState := by
  refine ⟨rfl, ?_, ?_, ?_, ?_⟩
  · intro id ls h; cases h
  · intro id _; rfl
  · intro t ht; cases ht
  · exact List.nodup_nil

theorem startLoop_timerInv {s : RegistryState} (h : TimerInv s) (id : String) :
    TimerInv (startLoop s id) := by
  unfold startLoop
  by_cases hid : id = ""
  · rw [if_pos hid]; exact h
  rw [if_neg hid]
  by_cases hrun : (s.loops id).isSome = true
  · rw [if_pos hrun]; exact h
  rw [if_neg hrun]
  have hno : s.loops id = none := by
    cases hl : s.loops id with
    | none => rfl
    | some ls => rw [hl] at hrun; simp at hrun
  cases hc : s.configs id with
  | none => exact h
  | some config =>
    refine ⟨?_, ?_, ?_, ?_, ?_⟩
    · show (if ("" : String) = id then _ else s.loops "") = none
      rw [if_neg fun hh => hid hh.symm]
      exact h.loopsEmpty
    · intro j ls' hj
      dsimp only at hj
      by_cases hji : j = id
      · subst hji
        rw [if_pos rfl] at hj
        injection hj with hj'
        refine ⟨max config.intervalSeconds 5 * 1000, ?_⟩
        have hold : timersFor s j = [] := h.timersNone j hno
        simp only [timersFor] at hold ⊢
        rw [List.filter_append, hold, ← hj']
        simp
      · rw [if_neg hji] at hj
        obtain ⟨ms', hms'⟩ := h.timersOne j ls' hj
        refine ⟨ms', ?_⟩
        simp only [timersFor] at hms' ⊢
        rw [List.filter_append, hms']
        have : ¬(id = j) := fun hh => hji hh.symm
        simp [this]
    · intro j hj
      dsimp only at hj
      by_cases hji : j = id
      · subst hji
        rw [if_pos rfl] at hj
        cases hj
      · rw [if_neg hji] at hj
        have hold := h.timersNone j hj
        simp only [timersFor] at hold ⊢
        rw [List.filter_append, hold]
        have : ¬(id = j) := fun hh => hji hh.symm
        simp [this]
    · intro t ht
      rcases List.mem_append.mp ht with h1 | h2
      · exact Nat.lt_succ_of_lt (h.idsLt t h1)
      · have : t = ⟨s.nextId, id, max config.intervalSeconds 5 * 1000⟩ := by
          simpa using h2
        rw [this]
        exact Nat.lt_succ_self _
    · rw [List.map_append, List.nodup_append]
      refine ⟨h.idsNodup, List.nodup_singleton _, ?_⟩
      intro a ha hb
      simp at hb
      rcases List.mem_map.mp ha with ⟨t, ht, hti⟩
      have hlt := h.idsLt t ht
      rw [hti, hb] at hlt
      exact Nat.lt_irrefl _ hlt

theorem stopLoop_timerInv {s : RegistryState} (h : TimerInv s) (id : String) :
    TimerInv (stopLoop s id) := by
  unfold stopLoop
  by_cases hid : id = ""
  · rw [if_pos hid]; exact h
  rw [if_neg hid]
  cases hl : s.loops id with
  | none => exact h
  | some ls =>
    obtain ⟨ms, hms⟩ := h.timersOne id ls hl
    have hτmem : (⟨ls.intervalId, id, ms⟩ : Timer) ∈ s.timers := by
      have hm : (⟨ls.intervalId, id, ms⟩ : Timer) ∈ timersFor s id := by
        rw [hms]; exact List.mem_singleton_self _
      exact (mem_timersFor.mp hm).1
    have huniq : ∀ t ∈ s.timers, t.id = ls.intervalId →
        t = (⟨ls.intervalId, id, ms⟩ : Timer) := by
      intro t ht hteq
      exact List.inj_on_of_nodup_map h.idsNodup ht hτmem (by rw [hteq])
    refine ⟨?_, ?_, ?_, ?_, ?_⟩
    · show (if ("" : String) = id then none else s.loops "") = none
      by_cases hh : ("" : String) = id
      · rw [if_pos hh]
      · rw [if_neg hh]; exact h.loopsEmpty
    · intro j ls' hj
      dsimp only at hj
      by_cases hji : j = id
      · subst hji
        rw [if_pos rfl] at hj
        cases hj
      · rw [if_neg hji] at hj
        obtain ⟨ms', hms'⟩ := h.timersOne j ls' hj
        refine ⟨ms', ?_⟩
        simp only [timersFor] at hms' ⊢
        rw [List.filter_filter]
        rw [← hms']
        apply List.filter_congr
        intro t ht
        by_cases hcj : t.chatId = j
        · have hne : ¬(t.id = ls.intervalId) := by
            intro hteq
            have := huniq t ht hteq
            rw [this] at hcj
            exact hji hcj.symm
          simp [hcj, hne]
        · simp [hcj]
    · intro j hj
      dsimp only at hj
      simp only [timersFor, List.filter_filter]
      by_cases hji : j = id
      · subst hji
        rw [List.filter_eq_nil_iff]
        intro t ht hp
        simp only [Bool.and_eq_true, decide_eq_true_eq] at hp
        have htin : t ∈ timersFor s j := mem_timersFor.mpr ⟨ht, hp.1⟩
        rw [hms] at htin
        have ht2 : t = (⟨ls.intervalId, j, ms⟩ : Timer) := by simpa using htin
        rw [ht2] at hp
        have := hp.2
        simp at this
      · rw [if_neg hji] at hj
        have hold := h.timersNone j hj
        simp only [timersFor] at hold
        rw [List.filter_eq_nil_iff]
        intro t ht hp
        simp only [Bool.and_eq_true, decide_eq_true_eq] at hp
        have : t ∈ List.filter (fun t => decide (t.chatId = j)) s.timers :=
          List.mem_filter.mpr ⟨ht, by simp [hp.1]⟩
        rw [hold] at this
        cases this
    · intro t ht
      have : t ∈ s.timers := (List.mem_filter.mp ht).1
      exact h.idsLt t this
    · exact h.idsNodup.sublist ((List.filter_sublist _).map _)

theorem setConfig_timerInv {s : RegistryState} (h : TimerInv s) (id : String)
    (c : Option SubroutineConfig) : TimerInv (setConfig s id c) :=
  ⟨h.loopsEmpty, h.timersOne, h.timersNone, h.idsLt, h.idsNodup⟩

theorem restartLoop_timerInv {s : RegistryState} (h : TimerInv s) (id : String) :
    TimerInv (restartLoop s id) := by
  unfold restartLoop
  by_cases hw : (s.loops id).isSome = true
  · simp only [hw, if_true]
    exact startLoop_timerInv (stopLoop_timerInv h id) id
  · simp only [hw, Bool.false_eq_true, if_false]
    exact stopLoop_timerInv h id

theorem onConfigChanged_timerInv {s : RegistryState} (h : TimerInv s)
    (id : String) : TimerInv (onConfigChanged s id) := by
  unfold onConfigChanged
  split
  · exact h
  cases hc : s.configs id with
  | none => exact stopLoop_timerInv h id
  | some config =>
    cases h1 : config.running <;> cases h2 : (s.loops id).isSome <;>
      simp only [h1, h2, Bool.true_and, Bool.false_and, Bool.and_true,
        Bool.and_false, Bool.not_true, Bool.not_false, Bool.false_eq_true,
        if_false, if_true] <;>
      first
        | exact startLoop_timerInv h id
        | exact stopLoop_timerInv h id
        | exact restartLoop_timerInv h id
        | exact h

theorem onSubroutineCreated_timerInv {s : RegistryState} (h : TimerInv s)
    (id : String) : TimerInv (onSubroutineCreated s id) := by
  unfold onSubroutineCreated
  split
  · exact h
  cases hc : s.configs id with
  | none => exact h
  | some config =>
    cases h1 : config.running <;>
      simp only [h1, Bool.false_eq_true, if_false, if_true] <;>
      first
        | exact startLoop_timerInv h id
        | exact h

theorem onTick_timerInv {s : RegistryState} (h : TimerInv s) (id : String)
    (env : TickEnv) : TimerInv (onTick s id env).1 := by
  rcases onTick_fst_cases s id env with heq | heq <;> rw [heq]
  · exact h
  · exact stopLoop_timerInv h id

theorem applyEvent_timerInv {s : RegistryState} (h : TimerInv s) (e : Event) :
    TimerInv (applyEvent s e) := by
  cases e with
  | configWrite id c =>
    exact onConfigChanged_timerInv (setConfig_timerInv h id c) id
  | subroutineCreated id config =>
    show TimerInv (if (s.configs id).isNone then
      onSubroutineCreated (setConfig s id (some config)) id else s)
    split
    · exact onSubroutineCreated_timerInv (setConfig_timerInv h id (some config)) id
    · exact h
  | tick id env => exact onTick_timerInv h id env

/- ── Config-sync invariant ─────────────────────────────────────────────── -/

/-- The reconciliation property: any session whose stored config is
missing or declares running false holds no LoopState. -/
def ConfigSync (s : RegistryState) : Prop :=
  ∀ id, configNotRunning s id = true → s.loops id = none

theorem initialState_configSync : ConfigSync initialState := fun _ _ => rfl

theorem configNotRunning_congr {s s' : RegistryState} (id : String)
    (h : s.configs id = s'.configs id) :
    configNotRunning s id = configNotRunning s' id := by
  unfold configNotRunning
  rw [h]

theorem setConfig_configs_other (s : RegistryState) (id j : String)
    (c : Option SubroutineConfig) (hj : j ≠ id) :
    (setConfig s id c).configs j = s.configs j := by
  simp [setConfig, hj]

theorem setConfig_configs_self (s : RegistryState) (id : String)
    (c : Option SubroutineConfig) : (setConfig s id c).configs id = c := by
  simp [setConfig]

theorem applyEvent_configSync {s : RegistryState} (hT : TimerInv s)
    (hS : ConfigSync s) (e : Event) : ConfigSync (applyEvent s e) := by
  cases e with
  | configWrite id c =>
    show ConfigSync (onConfigChanged (setConfig s id c) id)
    intro j hj
    have hcfg : (onConfigChanged (setConfig s id c) id).configs =
        (setConfig s id c).configs := onConfigChanged_configs _ id
    by_cases hji : j = id
    · subst hji
      by_cases hid : j = ""
      · have hs2 : onConfigChanged (setConfig s j c) j = setConfig s j c := by
          unfold onConfigChanged
          rw [if_pos hid]
        rw [hs2]
        show s.loops j = none
        rw [hid]
        exact hT.loopsEmpty
      · have hc1 : (setConfig s j c).configs j = c := setConfig_configs_self s j c
        cases c with
        | none =>
          have hs2 : onConfigChanged (setConfig s j none) j =
              stopLoop (setConfig s j none) j := by
            unfold onConfigChanged
            rw [if_neg hid, hc1]
          rw [hs2]
          exact stopLoop_loops_self _ j hT.loopsEmpty
        | some config =>
          have hco : (onConfigChanged (setConfig s j (some config)) j).configs j =
              some config := by rw [hcfg, hc1]
          have hrun : config.running = false := by
            unfold configNotRunning at hj
            rw [hco] at hj
            simpa using hj
          have hisr : ((setConfig s j (some config)).loops j).isSome =
              (s.loops j).isSome := rfl
          cases h2 : (s.loops j).isSome with
          | true =>
            have hs2 : onConfigChanged (setConfig s j (some config)) j =
                stopLoop (setConfig s j (some config)) j := by
              unfold onConfigChanged
              rw [if_neg hid, hc1]
              simp [hrun, hisr, h2]
            rw [hs2]
            exact stopLoop_loops_self _ j hT.loopsEmpty
          | false =>
            have hs2 : onConfigChanged (setConfig s j (some config)) j =
                setConfig s j (some config) := by
              unfold onConfigChanged
              rw [if_neg hid, hc1]
              simp [hrun, hisr, h2]
            rw [hs2]
            show s.loops j = none
            cases hl : s.loops j with
            | none => rfl
            | some ls => rw [hl] at h2; simp at h2
    · rw [onConfigChanged_loops_other _ id j hji]
      show s.loops j = none
      apply hS j
      have : configNotRunning s j =
          configNotRunning (onConfigChanged (setConfig s id c) id) j := by
        apply configNotRunning_congr
        rw [hcfg, setConfig_configs_other s id j c hji]
      rw [this]
      exact hj
  | subroutineCreated id config =>
    show ConfigSync (if (s.configs id).isNone then
      onSubroutineCreated (setConfig s id (some config)) id else s)
    split
    next hguard =>
      intro j hj
      have hcfg : (onSubroutineCreated (setConfig s id (some config)) id).configs =
          (setConfig s id (some config)).configs := onSubroutineCreated_configs _ id
      by_cases hji : j = id
      · subst hji
        by_cases hid : j = ""
        · have hs2 : onSubroutineCreated (setConfig s j (some config)) j =
              setConfig s j (some config) := by
            unfold onSubroutineCreated
            rw [if_pos hid]
          rw [hs2]
          show s.loops j = none
          rw [hid]
          exact hT.loopsEmpty
        · have hc1 : (setConfig s j (some config)).configs j = some config :=
            setConfig_configs_self s j (some config)
          have hco : (onSubroutineCreated (setConfig s j (some config)) j).configs j =
              some config := by rw [hcfg, hc1]
          have hrun : config.running = false := by
            unfold configNotRunning at hj
            rw [hco] at hj
            simpa using hj
          have hs2 : onSubroutineCreated (setConfig s j (some config)) j =
              setConfig s j (some config) := by
            unfold onSubroutineCreated
            rw [if_neg hid, hc1]
            simp [hrun]
          rw [hs2]
          show s.loops j = none
          apply hS j
          unfold configNotRunning
          rw [Option.isNone_iff_eq_none.mp hguard]
      · rw [onSubroutineCreated_loops_other _ id j hji]
        show s.loops j = none
        apply hS j
        have : configNotRunning s j =
            configNotRunning (onSubroutineCreated (setConfig s id (some config)) id) j := by
          apply configNotRunning_congr
          rw [hcfg, setConfig_configs_other s id j (some config) hji]
        rw [this]
        exact hj
    next => exact hS
  | tick id env =>
    show ConfigSync (onTick s id env).1
    intro j hj
    rcases onTick_fst_cases s id env with heq | heq
    · rw [heq] at hj ⊢
      exact hS j hj
    · rw [heq] at hj ⊢
      by_cases hji : j = id
      · subst hji
        exact stopLoop_loops_self s j hT.loopsEmpty
      · rw [stopLoop_loops_other s id j hji]
        apply hS j
        have : configNotRunning s j = configNotRunning (stopLoop s id) j := by
          apply configNotRunning_congr
          rw [stopLoop_configs s id]
        rw [this]
        exact hj

theorem applyEvents_inv (evs : List Event) :
    ∀ s, TimerInv s → ConfigSync s →
      TimerInv (applyEvents s evs) ∧ ConfigSync (applyEvents s evs) := by
  induction evs with
  | nil => exact fun s hT hS => ⟨hT, hS⟩
  | cons e rest ih =>
    intro s hT hS
    exact ih (applyEvent s e) (applyEvent_timerInv hT e)
      (applyEvent_configSync hT hS e)

/- ── Claim C9 ──────────────────────────────────────────────────────────── -/

/-- C9: after any sequence of reconciler events (external config writes
with their config-changed notifications, subroutine creations, and
ticks) settles, every session whose config is missing or declares
running false has no LoopState and zero armed timers, and every session
holds at most one armed timer at any time (the LoopState map itself is
keyed by session id, so at most one LoopState per session is structural,
and its unique timer carries the stored handle). -/
theorem C9_reconciler_settles (evs : List Event) (id : String)
    (h : configNotRunning (applyEvents initialState evs) id = true) :
    (applyEvents initialState evs).loops id = none ∧
    timersFor (applyEvents initialState evs) id = [] ∧
    ∀ j, (timersFor (applyEvents initialState evs) j).length ≤ 1 := by
  obtain ⟨hT, hS⟩ := applyEvents_inv evs initialState
    initialState_timerInv initialState_configSync
  have hnone := hS id h
  refine ⟨hnone, hT.timersNone id hnone, fun j => ?_⟩
  cases hl : (applyEvents initialState evs).loops j with
  | none => rw [hT.timersNone j hl]; simp
  | some ls =>
    obtain ⟨ms, hms⟩ := hT.timersOne j ls hl
    rw [hms]
    simp

/-- A demo event sequence: two sessions start running, then the first is
edited to running false. -/
def evsDemo : List Event :=
  [.configWrite "alpha" (some cfgTimeRunning),
   .configWrite "beta" (some cfgTimeRunning),
   .configWrite "alpha" (some defaultSubroutineConfig)]

/-- C9 witness: after the demo sequence the edited-to-stopped session
has no LoopState and no timer, while every session holds at most one
timer. -/
theorem C9_reconciler_settles_spot :
    configNotRunning (applyEvents initialState evsDemo) "alpha" = true ∧
    (applyEvents initialState evsDemo).loops "alpha" = none ∧
    timersFor (applyEvents initialState evsDemo) "alpha" = [] ∧
    (timersFor (applyEvents initialState evsDemo) "beta").length ≤ 1 := by
  have h := C9_reconciler_settles evsDemo "alpha" (by decide)
  exact ⟨by decide, h.1, h.2.1, h.2.2 "beta"⟩
